import Mathlib

/-!
Shallow embedding of the persistent data model of DownloaderForReddit
(`DownloaderForReddit/Database/Models.py`) and proofs about its mutating
operations.

Modelling conventions:
- Python strings are modelled as `List Char`.
- `datetime` values are modelled by their epoch timestamps as `Int`
  (only ordering and equality of datetimes matter to the operations here);
  `datetime.now()` is passed in explicitly as a `now` argument.
- Nullable columns are modelled as `Option`.
- SQLAlchemy's ambient session / `commit()` is modelled by explicit state
  passing: each mutating method returns the updated row.
-/

set_option autoImplicit false
set_option maxRecDepth 4096

/-- The source of posts tracked by the downloader (`RedditObject` in
`Models.py`), with its per-source policy columns.  `absolute_date_limit`
is the extraction watermark. -/
structure RedditObject where
  name : List Char
  post_limit : Int
  avoid_duplicates : Bool
  download_videos : Bool
  download_images : Bool
  download_nsfw : Int
  lock_settings : Bool
  absolute_date_limit : Int
  date_limit : Option Int
  download_enabled : Bool
  last_download : Option Int
  significant : Bool
  active : Bool
  inactive_date : Option Int
  post_sort_method : List Char
  new : Bool

/-- `RedditObject.set_date_limit`: tests the supplied epoch time against the
already established absolute date limit and advances the limit only when the
supplied epoch is strictly newer. -/
def RedditObject.set_date_limit (r : RedditObject) (epoch : Int) : RedditObject :=
  if epoch > r.absolute_date_limit then { r with absolute_date_limit := epoch } else r

/-- A discovered post (`Post` in `Models.py`). -/
structure Post where
  id : Int
  title : List Char
  date_posted : Option Int
  domain : List Char
  score : Int
  nsfw : Bool
  reddit_id : List Char
  url : List Char
  extracted : Bool
  extraction_date : Option Int
  extraction_error : Option (List Char)
  author_id : Option Int
  subreddit_id : Option Int
  download_session_id : Option Int

/-- `Post.set_extracted`: sets the extracted flag and stamps the extraction
date (`datetime.now()` is the explicit `now` argument). -/
def Post.set_extracted (p : Post) (now : Int) : Post :=
  { p with extracted := true, extraction_date := some now }

/-- `Post.set_extraction_failed`: clears the extracted flag and records the
error message. -/
def Post.set_extraction_failed (p : Post) (message : List Char) : Post :=
  { p with extracted := false, extraction_error := some message }

/-- A downloadable item (`Content` in `Models.py`).  `post` is the
relationship to the owning `Post` (nullable foreign key `post_id`);
`download_session_id` is the session in which this content was actually
downloaded, which may differ from the parent post's session. -/
structure Content where
  id : Int
  title : List Char
  download_title : Option (List Char)
  extension : List Char
  url : List Char
  directory_path : Option (List Char)
  downloaded : Bool
  download_date : Option Int
  download_error : Option (List Char)
  user_id : Option Int
  subreddit_id : Option Int
  post_id : Option Int
  post : Option Post
  download_session_id : Option Int

/-- The forbidden filename characters of `Content.make_download_title`
(the Python literal is the string of characters " * \ / ' . | ? : < >
surrounded by double quotes). -/
def forbiddenChars : List Char :=
  ['"', '*', '\\', '/', '\'', '.', '|', '?', ':', '<', '>']

/-- One step of the sanitizing list comprehension:
`x if x not in forbidden_chars else '#'`. -/
def sanitizeChar (x : Char) : Char :=
  if x ∈ forbiddenChars then '#' else x

/-- The sanitizing pass of `make_download_title`:
`''.join([x if x not in forbidden_chars else '#' for x in self.title])`. -/
def sanitizeTitle (title : List Char) : List Char :=
  title.map sanitizeChar

/-- `Content.make_download_title` viewed as the pure function from the raw
title to the sanitized, possibly truncated download title:
sanitize, then `if len(filename) >= 176: filename = filename[:170] + '...'`. -/
def makeDownloadTitle (title : List Char) : List Char :=
  if 176 ≤ (sanitizeTitle title).length then
    (sanitizeTitle title).take 170 ++ ['.', '.', '.']
  else
    sanitizeTitle title

/-- `Content.make_download_title` as the row update that stores the computed
download title. -/
def Content.make_download_title (c : Content) : Content :=
  { c with download_title := some (makeDownloadTitle c.title) }

/-- `os.path.join` on POSIX for two components: the second component wins if
absolute; otherwise it is appended, inserting a separator unless the first
component is empty or already ends with one. -/
def osPathJoin (a b : List Char) : List Char :=
  if b.head? = some '/' then b
  else if a = [] ∨ a.getLast? = some '/' then a ++ b
  else a ++ '/' :: b

/-- `Content.full_file_path`:
`os.path.join(self.directory_path, f'{self.download_title}.{self.extension}')`.
Defined when the nullable `directory_path` and `download_title` are present. -/
def Content.full_file_path (c : Content) : Option (List Char) :=
  match c.directory_path, c.download_title with
  | some d, some t => some (osPathJoin d (t ++ '.' :: c.extension))
  | _, _ => none

/-- `Content.set_downloaded`: stamps the download session id, sets the
downloaded flag and stamps the download date. -/
def Content.set_downloaded (c : Content) (download_session_id : Int) (now : Int) : Content :=
  { c with download_session_id := some download_session_id,
           downloaded := true,
           download_date := some now }

/-- `Content.set_download_error`: clears the downloaded flag and records the
error message. -/
def Content.set_download_error (c : Content) (message : List Char) : Content :=
  { c with downloaded := false, download_error := some message }

/-! ### Helper lemmas -/

/-- One `set_date_limit` call never lowers the watermark. -/
theorem set_date_limit_le (r : RedditObject) (epoch : Int) :
    r.absolute_date_limit ≤ (r.set_date_limit epoch).absolute_date_limit := by
  unfold RedditObject.set_date_limit
  split
  · exact le_of_lt (by assumption)
  · exact le_refl _

/-- Folding any sequence of `set_date_limit` calls never lowers the watermark. -/
theorem foldl_set_date_limit_le (es : List Int) :
    ∀ r : RedditObject,
      r.absolute_date_limit ≤ (es.foldl RedditObject.set_date_limit r).absolute_date_limit := by
  induction es with
  | nil => intro r; exact le_refl _
  | cons e es ih =>
      intro r
      exact le_trans (set_date_limit_le r e) (ih (r.set_date_limit e))

/-- Sanitizing a single character is idempotent. -/
theorem sanitizeChar_idem (x : Char) : sanitizeChar (sanitizeChar x) = sanitizeChar x := by
  by_cases h : x ∈ forbiddenChars <;> simp [sanitizeChar, h]

/-- A sanitized character is never forbidden. -/
theorem sanitizeChar_not_forbidden (x : Char) : sanitizeChar x ∉ forbiddenChars := by
  unfold sanitizeChar
  split
  · decide
  · assumption

/-- Sanitizing a title is idempotent. -/
theorem sanitizeTitle_idem (t : List Char) : sanitizeTitle (sanitizeTitle t) = sanitizeTitle t := by
  induction t with
  | nil => rfl
  | cons c cs ih =>
      simp only [sanitizeTitle, List.map_cons] at ih ⊢
      rw [sanitizeChar_idem]
      exact congrArg _ ih

/-- No character of a sanitized title is forbidden. -/
theorem sanitizeTitle_no_forbidden (t : List Char) :
    ∀ c ∈ sanitizeTitle t, c ∉ forbiddenChars := by
  intro c hc
  obtain ⟨x, -, rfl⟩ := List.mem_map.mp hc
  exact sanitizeChar_not_forbidden x

/-! ### Claims -/

/-- Claim C1: `set_date_limit` sets the watermark (`absolute_date_limit`) to
the candidate epoch iff the candidate is strictly greater than the current
value, is a no-op otherwise, and consequently across any sequence of calls
the watermark never decreases. -/
theorem set_date_limit_spec (r : RedditObject) (epoch : Int) (es : List Int) :
    (epoch > r.absolute_date_limit →
      (r.set_date_limit epoch).absolute_date_limit = epoch) ∧
    (¬ epoch > r.absolute_date_limit → r.set_date_limit epoch = r) ∧
    r.absolute_date_limit ≤ (es.foldl RedditObject.set_date_limit r).absolute_date_limit := by
  refine ⟨fun h => ?_, fun h => ?_, foldl_set_date_limit_le es r⟩
  · simp [RedditObject.set_date_limit, h]
  · simp [RedditObject.set_date_limit, h]

/-- A concrete source used for witnesses. -/
def exampleSource : RedditObject :=
  { name := ['u'], post_limit := 25, avoid_duplicates := true,
    download_videos := true, download_images := true, download_nsfw := 0,
    lock_settings := false, absolute_date_limit := 0, date_limit := none,
    download_enabled := true, last_download := none, significant := false,
    active := true, inactive_date := none, post_sort_method := ['N'],
    new := true }

/-- Witness for claim C1 at a concrete source and concrete epochs. -/
theorem set_date_limit_spec_witness :
    (exampleSource.set_date_limit 5).absolute_date_limit = 5 ∧
    exampleSource.set_date_limit (-1) = exampleSource ∧
    exampleSource.absolute_date_limit ≤
      (([3, 1, 7] : List Int).foldl RedditObject.set_date_limit exampleSource).absolute_date_limit := by
  refine ⟨(set_date_limit_spec exampleSource 5 []).1 (by decide),
          (set_date_limit_spec exampleSource (-1) []).2.1 (by decide),
          (set_date_limit_spec exampleSource 0 [3, 1, 7]).2.2⟩

/-- A 176-character title of plain letters; long enough to trigger truncation. -/
def longTitle : List Char := List.replicate 176 'a'

/-- Counterexample to claim C2: `make_download_title` is not idempotent.  On a
176-character title the first pass truncates and appends the ellipsis marker,
whose dots are themselves forbidden characters, so the second pass replaces
them with the placeholder. -/
theorem make_download_title_not_idempotent :
    makeDownloadTitle (makeDownloadTitle longTitle) ≠ makeDownloadTitle longTitle := by
  decide

/-- Claim C2 (amended): `make_download_title` is idempotent on every title
whose sanitized form is shorter than 176 characters, i.e. whenever no
truncation occurs. -/
theorem make_download_title_idem_of_short (t : List Char)
    (h : (sanitizeTitle t).length < 176) :
    makeDownloadTitle (makeDownloadTitle t) = makeDownloadTitle t := by
  have h1 : makeDownloadTitle t = sanitizeTitle t := by
    unfold makeDownloadTitle
    rw [if_neg (by omega)]
  rw [h1]
  unfold makeDownloadTitle
  rw [sanitizeTitle_idem]
  rw [if_neg (by omega)]

/-- Witness for amended claim C2 at a concrete short title. -/
theorem make_download_title_idem_of_short_witness :
    (sanitizeTitle ['a', '/', 'b']).length < 176 ∧
    makeDownloadTitle (makeDownloadTitle ['a', '/', 'b']) = makeDownloadTitle ['a', '/', 'b'] :=
  ⟨by decide, make_download_title_idem_of_short ['a', '/', 'b'] (by decide)⟩

/-- A 176-character title starting with a forbidden slash. -/
def longSlashTitle : List Char := '/' :: List.replicate 175 'a'

/-- Counterexample to claim C3: for a title containing a forbidden character
that is long enough to be truncated, the output of `make_download_title`
contains the forbidden character dot, contributed by the ellipsis marker. -/
theorem make_download_title_output_forbidden :
    ('/' ∈ longSlashTitle ∧ '/' ∈ forbiddenChars) ∧
    '.' ∈ makeDownloadTitle longSlashTitle ∧ '.' ∈ forbiddenChars := by
  decide

/-- Claim C3 (amended): for every title containing a forbidden character, the
output of `make_download_title` has length at most 176; when truncation occurs
(sanitized length at or above 176) the output has length exactly 173, its
first 170 characters are free of forbidden characters and the only forbidden
characters are the three dots of the trailing ellipsis marker; when no
truncation occurs the output contains no forbidden character at all. -/
theorem make_download_title_safe (t : List Char)
    (_h : ∃ c ∈ t, c ∈ forbiddenChars) :
    (makeDownloadTitle t).length ≤ 176 ∧
    (176 ≤ (sanitizeTitle t).length →
      (makeDownloadTitle t).length = 173 ∧
      (∀ c ∈ (makeDownloadTitle t).take 170, c ∉ forbiddenChars) ∧
      (makeDownloadTitle t).drop 170 = ['.', '.', '.']) ∧
    ((sanitizeTitle t).length < 176 →
      ∀ c ∈ makeDownloadTitle t, c ∉ forbiddenChars) := by
  by_cases h176 : 176 ≤ (sanitizeTitle t).length
  · have hlen : ((sanitizeTitle t).take 170).length = 170 := by
      rw [List.length_take]
      omega
    have heq : makeDownloadTitle t = (sanitizeTitle t).take 170 ++ ['.', '.', '.'] := by
      unfold makeDownloadTitle
      rw [if_pos h176]
    refine ⟨?_, fun _ => ⟨?_, ?_, ?_⟩, fun hlt => absurd h176 (by omega)⟩
    · rw [heq, List.length_append, hlen]
      decide
    · rw [heq, List.length_append, hlen]
      decide
    · intro c hc
      rw [heq] at hc
      have : c ∈ (sanitizeTitle t).take 170 := by
        have htake : ((sanitizeTitle t).take 170 ++ ['.', '.', '.']).take 170
            = (sanitizeTitle t).take 170 := by
          rw [List.take_append_of_le_length (le_of_eq hlen.symm)]
          rw [List.take_of_length_le (le_of_eq hlen)]
        rwa [htake] at hc
      exact sanitizeTitle_no_forbidden t c (List.mem_of_mem_take this)
    · rw [heq, List.drop_append_of_le_length (le_of_eq hlen.symm)]
      rw [List.drop_of_length_le (le_of_eq hlen)]
      rfl
  · have heq : makeDownloadTitle t = sanitizeTitle t := by
      unfold makeDownloadTitle
      rw [if_neg h176]
    refine ⟨?_, fun h' => absurd h' h176, fun _ => ?_⟩
    · rw [heq]; omega
    · rw [heq]; exact sanitizeTitle_no_forbidden t

/-- Witness for amended claim C3 at a concrete title with a forbidden slash. -/
theorem make_download_title_safe_witness :
    (∃ c ∈ ['a', '/', 'b'], c ∈ forbiddenChars) ∧
    ((makeDownloadTitle ['a', '/', 'b']).length ≤ 176 ∧
    (176 ≤ (sanitizeTitle ['a', '/', 'b']).length →
      (makeDownloadTitle ['a', '/', 'b']).length = 173 ∧
      (∀ c ∈ (makeDownloadTitle ['a', '/', 'b']).take 170, c ∉ forbiddenChars) ∧
      (makeDownloadTitle ['a', '/', 'b']).drop 170 = ['.', '.', '.']) ∧
    ((sanitizeTitle ['a', '/', 'b']).length < 176 →
      ∀ c ∈ makeDownloadTitle ['a', '/', 'b'], c ∉ forbiddenChars)) :=
  ⟨by decide, make_download_title_safe ['a', '/', 'b'] (by decide)⟩

/-- Claim C7: the title a/b\c:d?e sanitizes to a#b#c#d#e, every forbidden
character replaced by the placeholder and no truncation. -/
theorem make_download_title_example :
    makeDownloadTitle ['a', '/', 'b', '\\', 'c', ':', 'd', '?', 'e']
      = ['a', '#', 'b', '#', 'c', '#', 'd', '#', 'e'] := by
  decide

/-- A concrete pending post used for counterexamples and witnesses. -/
def examplePost : Post :=
  { id := 1, title := ['t'], date_posted := none, domain := [], score := 0,
    nsfw := false, reddit_id := ['x'], url := [], extracted := false,
    extraction_date := none, extraction_error := none, author_id := none,
    subreddit_id := none, download_session_id := none }

/-- Counterexample to claim C4: the extraction status is not one-way and no
error is raised on a terminal state.  Calling `set_extraction_failed` on an
already-extracted post silently moves `extracted` back from true to false. -/
theorem post_backward_transition :
    (examplePost.set_extracted 0).extracted = true ∧
    ((examplePost.set_extracted 0).set_extraction_failed ['e']).extracted = false := by
  exact ⟨rfl, rfl⟩

/-- Claim C4 (amended): `set_extracted` and `set_extraction_failed`
unconditionally overwrite the status regardless of the prior state:
`set_extracted` always leaves `extracted = true` and stamps the extraction
date, `set_extraction_failed` always leaves `extracted = false` and records
the message; calling either on an already-terminal post silently changes the
state, and no error of any kind is raised. -/
theorem post_transitions_unconditional (p : Post) (now : Int) (m : List Char) :
    (p.set_extracted now).extracted = true ∧
    (p.set_extracted now).extraction_date = some now ∧
    (p.set_extraction_failed m).extracted = false ∧
    (p.set_extraction_failed m).extraction_error = some m := by
  exact ⟨rfl, rfl, rfl, rfl⟩

/-- A concrete content row used for counterexamples and witnesses. -/
def exampleContent : Content :=
  { id := 1, title := ['t'], download_title := none, extension := ['m', 'p', '4'],
    url := ['u'], directory_path := none, downloaded := false,
    download_date := none, download_error := none, user_id := none,
    subreddit_id := none, post_id := some 1,
    post := some { examplePost with download_session_id := some 3 },
    download_session_id := none }

/-- Counterexample to claim C5: the `downloaded` flag is not one-way and no
error is raised on a terminal state.  Calling `set_download_error` on an
already-downloaded content silently moves `downloaded` back from true to
false. -/
theorem content_downloaded_reverts :
    (exampleContent.set_downloaded 5 0).downloaded = true ∧
    ((exampleContent.set_downloaded 5 0).set_download_error ['e']).downloaded = false := by
  exact ⟨rfl, rfl⟩

/-- Claim C5 (amended): `set_downloaded` and `set_download_error`
unconditionally overwrite the status regardless of the prior state:
`set_downloaded` always leaves `downloaded = true`, `set_download_error`
always leaves `downloaded = false` and records the message; calling either on
an already-terminal content silently changes the state, and no error of any
kind is raised. -/
theorem content_transitions_unconditional (c : Content) (sid now : Int) (m : List Char) :
    (c.set_downloaded sid now).downloaded = true ∧
    (c.set_downloaded sid now).download_session_id = some sid ∧
    (c.set_download_error m).downloaded = false ∧
    (c.set_download_error m).download_error = some m := by
  exact ⟨rfl, rfl, rfl, rfl⟩

/-- Claim C6: a content references two sessions, the discovery session via its
parent post's `download_session_id` and its own `download_session_id` stamped
by `set_downloaded`.  A content discovered in session d that fails and is
later downloaded by `set_downloaded e` ends with download session e while its
parent post still records session d. -/
theorem content_dual_session (c : Content) (p : Post) (m : List Char) (d e now : Int)
    (hp : c.post = some p) (hd : p.download_session_id = some d) :
    ((c.set_download_error m).set_downloaded e now).download_session_id = some e ∧
    ((c.set_download_error m).set_downloaded e now).post = some p ∧
    p.download_session_id = some d := by
  refine ⟨rfl, ?_, hd⟩
  simp [Content.set_download_error, Content.set_downloaded, hp]

/-- Witness for claim C6: discovered in session 3, downloaded in session 5. -/
theorem content_dual_session_witness :
    exampleContent.post = some { examplePost with download_session_id := some 3 } ∧
    ((exampleContent.set_download_error ['e']).set_downloaded 5 0).download_session_id = some 5 ∧
    ((exampleContent.set_download_error ['e']).set_downloaded 5 0).post
      = some { examplePost with download_session_id := some 3 } ∧
    ({ examplePost with download_session_id := some 3 } : Post).download_session_id = some 3 :=
  ⟨rfl, content_dual_session exampleContent
    { examplePost with download_session_id := some 3 } ['e'] 3 5 0 rfl rfl⟩

/-- Claim C8: for every content with a directory path, download title and
extension, where the directory path is nonempty and has no trailing separator
and the download title has no leading separator, the computed full file path
is the directory path, a separator, the download title, a single dot, and the
extension. -/
theorem full_file_path_spec (c : Content) (d t : List Char)
    (hd : c.directory_path = some d) (ht : c.download_title = some t)
    (hne : d ≠ []) (hlast : d.getLast? ≠ some '/') (hhead : t.head? ≠ some '/') :
    c.full_file_path = some (d ++ '/' :: (t ++ '.' :: c.extension)) := by
  have hb : (t ++ '.' :: c.extension).head? ≠ some '/' := by
    cases t with
    | nil => simp
    | cons x xs =>
        simpa using hhead
  simp only [Content.full_file_path, hd, ht]
  rw [osPathJoin, if_neg hb, if_neg (by simp [hne, hlast])]

/-- A concrete content row with directory path and download title present. -/
def exampleContentPath : Content :=
  { exampleContent with directory_path := some ['d'], download_title := some ['f'] }

/-- Witness for claim C8 at a concrete content: the path d/f.mp4. -/
theorem full_file_path_spec_witness :
    exampleContentPath.directory_path = some ['d'] ∧
    exampleContentPath.download_title = some ['f'] ∧
    exampleContentPath.full_file_path = some ['d', '/', 'f', '.', 'm', 'p', '4'] :=
  ⟨rfl, rfl, full_file_path_spec exampleContentPath ['d'] ['f'] rfl rfl
    (by decide) (by decide) (by decide)⟩

/-- Claim C9: `set_download_error` modifies only the `downloaded` flag and the
`download_error` message; every other field of the content — in particular
`download_session_id` and `download_date` stamped by an earlier
`set_downloaded` — is left unchanged. -/
theorem set_download_error_frame (c : Content) (m : List Char) :
    (c.set_download_error m).downloaded = false ∧
    (c.set_download_error m).download_error = some m ∧
    (c.set_download_error m).download_session_id = c.download_session_id ∧
    (c.set_download_error m).download_date = c.download_date ∧
    (c.set_download_error m).id = c.id ∧
    (c.set_download_error m).title = c.title ∧
    (c.set_download_error m).download_title = c.download_title ∧
    (c.set_download_error m).extension = c.extension ∧
    (c.set_download_error m).url = c.url ∧
    (c.set_download_error m).directory_path = c.directory_path ∧
    (c.set_download_error m).user_id = c.user_id ∧
    (c.set_download_error m).subreddit_id = c.subreddit_id ∧
    (c.set_download_error m).post_id = c.post_id ∧
    (c.set_download_error m).post = c.post := by
  exact ⟨rfl, rfl, rfl, rfl, rfl, rfl, rfl, rfl, rfl, rfl, rfl, rfl, rfl, rfl⟩

/-- Claim C10: `set_extracted` does not clear `extraction_error`; after
`set_extraction_failed m` followed by `set_extracted`, the post is extracted
while the stale failure message m persists in `extraction_error`. -/
theorem set_extracted_keeps_stale_error (p : Post) (m : List Char) (now : Int) :
    ((p.set_extraction_failed m).set_extracted now).extracted = true ∧
    ((p.set_extraction_failed m).set_extracted now).extraction_error = some m := by
  exact ⟨rfl, rfl⟩
